import Mathlib

/-!
# FleetFlow — Real-Time Route Monitoring & Adaptive Re-Optimization Engine

Shallow embedding in Lean 4 of the core services of the FleetFlow logistics
backend (`src/backend/src/services` and `src/backend/src/server.js`), together
with theorems settling the specification claims about them.

Conventions of the embedding:
* JavaScript numbers are modelled as `ℚ` where division occurs, and as `Int`
  or `Nat` where the code only ever holds integers (`Math.round` results,
  array indices, weather codes).
* A JavaScript value that may be `undefined`/`null` is an `Option`.
  The JS falsy test `!x` on a numeric field is modelled as
  "`none` or `some 0`" (`(·.getD 0) = 0`).
* Fallible asynchronous calls are `Except String α` values passed in as
  arguments: the embedding of a caller receives the settled outcome of each
  external call it awaits.
* Strings (priorities, congestion levels, conditions, severities) stay
  `String`s, exactly as the source compares them.
-/

namespace FleetFlow

/-- A `[longitude, latitude]` pair as used throughout the services. -/
def Coords : Type := ℚ × ℚ

instance : DecidableEq Coords := by
  unfold Coords
  infer_instance

instance : Inhabited Coords := ⟨(0, 0)⟩

/-! ## §1 tomtom.service.js — congestion classification (claim C9) -/

/-- Embedding of `TomTomService.calculateCongestionLevel(currentSpeed, freeFlowSpeed)`
(`src/backend/src/services/tomtom.service.js` lines 213–223).
`!currentSpeed || !freeFlowSpeed` (missing or zero) yields `"unknown"`;
otherwise the discretized ratio. -/
def calculateCongestionLevel (currentSpeed freeFlowSpeed : Option ℚ) : String :=
  if currentSpeed.getD 0 = 0 ∨ freeFlowSpeed.getD 0 = 0 then "unknown"
  else
    let ratio := currentSpeed.getD 0 / freeFlowSpeed.getD 0
    if ratio ≥ 9/10 then "free"
    else if ratio ≥ 7/10 then "light"
    else if ratio ≥ 5/10 then "moderate"
    else if ratio ≥ 3/10 then "heavy"
    else "severe"

/-! ## §2 weather.service.js — weather code mapping (claim C10) -/

/-- The enumerated weather-condition set of the spec's data model (§3). -/
def conditionSet : List String :=
  ["clear", "cloudy", "rain", "heavy_rain", "snow", "fog", "storm", "hail", "wind"]

/-- Embedding of `WeatherService.mapWeatherCode(code)`
(`src/backend/src/services/weather.service.js` lines 294–311).
A missing code maps to `"clear"`; otherwise the WMO threshold chain. -/
def mapWeatherCode (code : Option Int) : String :=
  match code with
  | none => "clear"
  | some code =>
    if code = 0 then "clear"
    else if code ≤ 3 then "cloudy"
    else if 45 ≤ code ∧ code ≤ 48 then "fog"
    else if 51 ≤ code ∧ code ≤ 55 then "rain"
    else if 56 ≤ code ∧ code ≤ 57 then "rain"
    else if 61 ≤ code ∧ code ≤ 65 then (if 65 ≤ code then "heavy_rain" else "rain")
    else if 66 ≤ code ∧ code ≤ 67 then "rain"
    else if 71 ≤ code ∧ code ≤ 77 then "snow"
    else if 80 ≤ code ∧ code ≤ 82 then (if 82 ≤ code then "heavy_rain" else "rain")
    else if 85 ≤ code ∧ code ≤ 86 then "snow"
    else if 95 ≤ code ∧ code ≤ 99 then (if 96 ≤ code then "hail" else "storm")
    else "clear"

/-! ## §3 point sampling (claim C8)

`WeatherService.samplePoints` (weather.service.js lines 365–377) and
`TomTomService.sampleRoutePoints` (tomtom.service.js lines 285–297) are
line-for-line identical: stride through the list at `floor(len/maxPoints)`,
pushing a point per step and breaking once `maxPoints` points are collected. -/

/-- The sampling loop of `samplePoints`: starting at index `i` having already
pushed `count` points, push `coords[i]` whenever `i < len`, and stop right
after the push that reaches `maxPoints` points (the JS `break`). -/
def sampleFrom (coords : List α) (step maxPoints : Nat) (i count : Nat) : List α :=
  if h : i < coords.length then
    if maxPoints ≤ count + 1 then [coords.get ⟨i, h⟩]
    else coords.get ⟨i, h⟩ :: sampleFrom coords step maxPoints (i + step) (count + 1)
  else []
termination_by maxPoints - count
decreasing_by
  simp_wf
  omega

/-- Embedding of `samplePoints(coordinates, maxPoints)`
(`src/backend/src/services/weather.service.js` lines 365–377). -/
def samplePoints (coords : List α) (maxPoints : Nat) : List α :=
  if coords.length ≤ maxPoints then coords
  else sampleFrom coords (coords.length / maxPoints) maxPoints 0 0

/-- `TomTomService.sampleRoutePoints` (tomtom.service.js lines 285–297) is a
verbatim duplicate of `WeatherService.samplePoints`; the embedding shares the
definition. -/
def sampleRoutePoints (coords : List Coords) (maxPoints : Nat) : List Coords :=
  samplePoints coords maxPoints

/-! ## §4 aiRoute.service.js — AI response validation (claim C1)

`parseAIResponse` (aiRoute.service.js lines 123–156) strips an optional code
fence, runs `JSON.parse`, and then validates the `sequence` field.  The string
and JSON stage is modelled at its outcome: the optional `sequence` field of
the parsed object, `none` covering a missing field or a non-array value
(both throw `'Invalid sequence in AI response'`).  A JSON number is a `ℚ`;
`Number.isInteger(idx)` is `idx.den = 1`. -/

/-- The per-entry test of aiRoute.service.js line 135:
`Number.isInteger(idx) && idx >= 0 && idx < deliveries.length`. -/
def sequenceEntryValid (n : Nat) (idx : ℚ) : Bool :=
  idx.den == 1 && decide (0 ≤ idx) && decide (idx < n)

/-- Whether `parseAIResponse` accepts (does not throw on) a response whose
parsed `sequence` field is `sequence`, against `n` deliveries
(aiRoute.service.js lines 131–136). -/
def parseAIResponseAccepts (sequence : Option (List ℚ)) (n : Nat) : Bool :=
  match sequence with
  | none => false
  | some s => s.all (sequenceEntryValid n)

/-! ## §5 realTimeUpdate.service.js — data shapes -/

/-- A traffic incident as stored on a snapshot's traffic data
(tomtom.service.js lines 76–92); only the fields the monitored decisions
read are kept. -/
structure Incident where
  type : String
  severity : String

/-- A synthesized weather alert (weather.service.js lines 153–201). -/
structure Alert where
  severity : String

/-- The `current` weather block (weather.service.js lines 97–117). -/
structure CurrentWeather where
  condition : Option String
  visibility : Option ℚ

/-- The `weatherData` slot of a snapshot (realTimeUpdate.service.js lines
92–97): `current`, first six hourly forecast entries (opaque here — the core
never reads into them), and alerts. -/
structure WeatherData where
  current : Option CurrentWeather
  forecast : List String
  alerts : Option (List Alert)

/-- The `trafficData` slot of a snapshot (realTimeUpdate.service.js lines
72–80). -/
structure TrafficData where
  currentSpeed : Option ℚ
  freeFlowSpeed : Option ℚ
  congestionLevel : String
  congestionPercentage : Int
  delayMinutes : Int
  incidents : Option (List Incident)

/-- The revised ETA triple (realTimeUpdate.service.js lines 206–225);
timestamps are minutes on an absolute scale. -/
structure UpdatedETA where
  originalETA : Int
  currentETA : Int
  delayMinutes : Int

/-- Result of `shouldRecalculate` (realTimeUpdate.service.js lines 265–268). -/
structure Verdict where
  suggested : Bool
  reason : Option String

/-! ## §6 realTimeUpdate.service.js — recalculation decision (claim C2) -/

/-- The `reasons` accumulator of `shouldRecalculate`
(realTimeUpdate.service.js lines 230–263), in push order.  Note the
structure of the source: the `eta.delayMinutes > 30` check sits inside the
`if (trafficData)` block. -/
def shouldRecalculateReasons (trafficData : Option TrafficData)
    (weatherData : Option WeatherData) (updatedETA : UpdatedETA) : List String :=
  (match trafficData with
   | none => []
   | some t =>
     (if t.congestionLevel == "severe" then ["Severe traffic congestion detected"] else []) ++
     (if (t.incidents.getD []).any (fun i => i.type == "closure") then
        ["Road closure on route"] else []) ++
     (if 30 < updatedETA.delayMinutes then
        ["Significant delay of " ++ toString updatedETA.delayMinutes ++ " minutes"] else []))
  ++ (match weatherData with
      | none => []
      | some w =>
        match w.current with
        | none => []
        | some cur =>
          (if (match cur.condition with
               | some c => ["storm", "hail", "heavy_rain"].contains c
               | none => false) then
             ["Severe weather: " ++ cur.condition.getD ""] else []) ++
          (if (match cur.visibility with
               | some v => v != 0 && decide (v < 1)
               | none => false) then
             ["Very low visibility"] else []))
  ++ (match weatherData with
      | none => []
      | some w =>
        if 0 < (w.alerts.getD []).length then
          (if 0 < ((w.alerts.getD []).filter (fun a => a.severity == "high")).length then
             ["Severe weather alerts"] else [])
        else [])

/-- Embedding of `shouldRecalculate(trafficData, weatherData, updatedETA)`
(realTimeUpdate.service.js lines 230–269): `suggested` iff any reason
accumulated; `reason` is the `; `-joined string, `null` when empty. -/
def shouldRecalculate (trafficData : Option TrafficData)
    (weatherData : Option WeatherData) (updatedETA : UpdatedETA) : Verdict :=
  let reasons := shouldRecalculateReasons trafficData weatherData updatedETA
  { suggested := !reasons.isEmpty
    reason := if reasons.isEmpty then none else some (String.intercalate "; " reasons) }

/-! ## §7 realTimeUpdate.service.js — the per-route unit (claim C4) -/

/-- The slice of a `RoutePlan` document that `updateRouteData` reads. -/
structure Route where
  geometryCoords : Option (List Coords)
  waypointCoords : Option (List (Option Coords))
  metricsTotalDuration : Option ℚ
  endTime : Option Int
  scheduledDate : Int
  status : String

/-- `route.routeGeometry?.coordinates || route.route?.map(wp =>
wp.location?.coordinates).filter(Boolean) || []` (realTimeUpdate.service.js
lines 53–54).  A present array is always truthy in JS, even when empty. -/
def routeCoordinates (route : Route) : List Coords :=
  match route.geometryCoords with
  | some cs => cs
  | none =>
    match route.waypointCoords with
    | some ws => ws.filterMap id
    | none => []

/-- The averaged output of `getTrafficAlongRoute` (tomtom.service.js lines
173–208) as consumed by `updateRouteData`. -/
structure TrafficFlow where
  averageSpeed : Option ℚ
  averageFreeFlowSpeed : Option ℚ
  congestionLevel : String

/-- Embedding of `calculateCongestionPercentage(trafficFlow)`
(realTimeUpdate.service.js lines 186–190). -/
def calculateCongestionPercentage (flow : TrafficFlow) : Int :=
  if flow.averageSpeed.getD 0 = 0 ∨ flow.averageFreeFlowSpeed.getD 0 = 0 then 0
  else
    let ratio := 1 - flow.averageSpeed.getD 0 / flow.averageFreeFlowSpeed.getD 0
    round (max 0 (min 100 (ratio * 100)))

/-- Embedding of `calculateDelayMinutes(trafficFlow, originalDuration)`
(realTimeUpdate.service.js lines 195–201). -/
def calculateDelayMinutes (flow : TrafficFlow) (originalDuration : Option ℚ) : Int :=
  if flow.averageSpeed.getD 0 = 0 ∨ flow.averageFreeFlowSpeed.getD 0 = 0 ∨
     originalDuration.getD 0 = 0 then 0
  else
    let speedRatio := flow.averageFreeFlowSpeed.getD 0 / flow.averageSpeed.getD 0
    round (originalDuration.getD 0 * speedRatio - originalDuration.getD 0)

/-- Embedding of `calculateUpdatedETA(route, trafficData)`
(realTimeUpdate.service.js lines 206–225); `!trafficData.delayMinutes` is the
zero test. -/
def calculateUpdatedETA (route : Route) (trafficData : Option TrafficData) : UpdatedETA :=
  let originalETA := route.endTime.getD route.scheduledDate
  match trafficData with
  | none => ⟨originalETA, originalETA, 0⟩
  | some t =>
    if t.delayMinutes = 0 then ⟨originalETA, originalETA, 0⟩
    else ⟨originalETA, originalETA + t.delayMinutes, t.delayMinutes⟩

/-- The result of `getWeather` (weather.service.js lines 19–53) as consumed by
`updateRouteData`; forecast entries are opaque, only `.slice(0, 6)` touches
them. -/
structure WeatherFetch where
  current : Option CurrentWeather
  hourlyForecast : List String
  alerts : List Alert

/-- The `RealTimeUpdate` snapshot document created by `updateRouteData`
(realTimeUpdate.service.js lines 110–119). -/
structure SnapshotRec where
  trafficData : Option TrafficData
  weatherData : Option WeatherData
  recalculationSuggested : Bool
  recalculationReason : Option String
  updatedETA : UpdatedETA

/-- Embedding of `updateRouteData(route)` (realTimeUpdate.service.js lines
50–136).  The two awaited external fetches are passed in as settled
outcomes: `trafficFetch` is the `Promise.all` of `getTrafficAlongRoute` and
`getTrafficIncidents` (either rejection rejects the pair), `weatherFetch` is
`getWeather` at the route midpoint.  A caught fetch error degrades the
corresponding slot to `none` (source lines 81–83 and 99–101).  The persisted
snapshot is returned; `Except.ok none` is the early `return null` for a route
without coordinates, `Except.error` would be a rejection of the unit.  The
post-persist side effects (status flip to delayed, notification, source lines
121–129) mutate other documents and are not part of the returned snapshot. -/
def updateRouteData (route : Route)
    (trafficFetch : Except String (TrafficFlow × List Incident))
    (weatherFetch : Except String WeatherFetch) :
    Except String (Option SnapshotRec) :=
  let coordinates := routeCoordinates route
  if coordinates.isEmpty then Except.ok none
  else
    let trafficData : Option TrafficData :=
      match trafficFetch with
      | .error _ => none
      | .ok (flow, incidents) =>
        some { currentSpeed := flow.averageSpeed
               freeFlowSpeed := flow.averageFreeFlowSpeed
               congestionLevel := flow.congestionLevel
               congestionPercentage := calculateCongestionPercentage flow
               delayMinutes := calculateDelayMinutes flow route.metricsTotalDuration
               incidents := some (incidents.take 10) }
    let weatherData : Option WeatherData :=
      match coordinates.get? (coordinates.length / 2) with
      | none => none
      | some _ =>
        match weatherFetch with
        | .error _ => none
        | .ok w => some { current := w.current
                          forecast := w.hourlyForecast.take 6
                          alerts := some w.alerts }
    let updatedETA := calculateUpdatedETA route trafficData
    let recalculation := shouldRecalculate trafficData weatherData updatedETA
    Except.ok (some { trafficData := trafficData
                      weatherData := weatherData
                      recalculationSuggested := recalculation.suggested
                      recalculationReason := recalculation.reason
                      updatedETA := updatedETA })

/-- The aggregation of `updateAllActiveRoutes` (realTimeUpdate.service.js
lines 31–36): `Promise.allSettled` outcomes counted as
`(successful, failed)` = (fulfilled, rejected). -/
def settledCounts (results : List (Except String (Option SnapshotRec))) : Nat × Nat :=
  (results.countP (fun r => r.isOk), results.countP (fun r => !r.isOk))

/-! ## §8 server.js — the scan scheduler (claim C3)

`cron.schedule('*/5 * * * *', async () => { await
RealTimeUpdateService.updateAllActiveRoutes(); ... })` (server.js lines
132–140).  The handler carries no guard of any kind: each timer firing starts
an `updateAllActiveRoutes` cycle unconditionally.  The scheduler is embedded
as a transition system over the number of in-flight scan cycles. -/

/-- Events of the scan scheduler: the node-cron timer fires, or a running
`updateAllActiveRoutes` invocation settles. -/
inductive CronEvent where
  | fire
  | finish
deriving DecidableEq

/-- One scheduler step: a firing starts a cycle unconditionally (the handler
in server.js lines 132–140 performs no is-running check); a finish retires
one running cycle. -/
def cronStep (running : Nat) : CronEvent → Nat
  | .fire => running + 1
  | .finish => running - 1

/-- Number of concurrently running scan cycles after a sequence of scheduler
events, starting from `running` in-flight cycles. -/
def cronRun (running : Nat) : List CronEvent → Nat
  | [] => running
  | e :: es => cronRun (cronStep running e) es

/-! ## §9 aiRoute.service.js — manual re-optimization gate (claim C5) -/

/-- The three return shapes of `reoptimizeRoute` (aiRoute.service.js lines
270–310): all deliveries done (line 278), conditions unchanged (line 287),
or the optimizer invoked (lines 292–309). -/
inductive ReoptOutcome where
  | allCompleted
  | stillOptimal
  | reoptimized
deriving DecidableEq

/-- The `shouldReoptimize` condition of `reoptimizeRoute` (aiRoute.service.js
lines 281–284): `(trafficUpdate?.delayMinutes > 15) ||
(weatherUpdate?.current?.condition && ['storm','hail'].includes(...)) ||
(trafficUpdate?.incidents?.some(i => i.severity === 'severe'))`. -/
def shouldReoptimizeCheck (trafficUpdate : Option TrafficData)
    (weatherUpdate : Option WeatherData) : Bool :=
  (match trafficUpdate with
   | some t => decide ((15 : Int) < t.delayMinutes)
   | none => false)
  || (match weatherUpdate with
      | some w =>
        match w.current with
        | some cur =>
          match cur.condition with
          | some c => ["storm", "hail"].contains c
          | none => false
        | none => false
      | none => false)
  || (match trafficUpdate with
      | some t => (t.incidents.getD []).any (fun i => i.severity == "severe")
      | none => false)

/-- Embedding of `reoptimizeRoute(currentRoute, newConditions)`
(aiRoute.service.js lines 270–310), abstracted to what it decides: the
route's delivery ids, the completed-delivery id list, and the latest traffic
and weather conditions, returning which of the three paths is taken.
`ReoptOutcome.reoptimized` is the one path that awaits `this.optimizeRoute`. -/
def reoptimizeRoute (deliveryIds : List String) (completedDeliveries : Option (List String))
    (trafficUpdate : Option TrafficData) (weatherUpdate : Option WeatherData) : ReoptOutcome :=
  let remaining := deliveryIds.filter (fun d => !((completedDeliveries.getD []).contains d))
  if remaining.length = 0 then .allCompleted
  else if !(shouldReoptimizeCheck trafficUpdate weatherUpdate) then .stillOptimal
  else .reoptimized

/-! ## §10 aiRoute.service.js — fallback optimizer (claims C6, C7)

`fallbackOptimization(deliveries, startLocation, endLocation, priority)`
(aiRoute.service.js lines 166–226).  The haversine `calculateDistance` runs
on IEEE floats with trigonometry; the sequencing logic never depends on its
values, so the embedding takes the distance function as a parameter `dist`
and every theorem quantifies over it. -/

/-- A delivery as the fallback optimizer reads it: its `priority` string and
its `location?.coordinates`. -/
structure Delivery where
  priority : String
  coords : Option Coords

/-- The four priority buckets recognized by the fallback optimizer
(aiRoute.service.js lines 170–175), in processing order. -/
def recognizedPriorities : List String := ["urgent", "high", "normal", "low"]

/-- `calculateDistance(currentLocation, remaining[i].location?.coordinates ||
[0, 0])` (aiRoute.service.js line 186). -/
def deliveryDist (dist : Coords → Coords → ℚ) (cur : Coords) (d : Delivery) : ℚ :=
  dist cur (d.coords.getD ((0 : ℚ), (0 : ℚ)))

/-- The inner selection loop of the fallback optimizer (aiRoute.service.js
lines 183–189): scan the remaining stops keeping the first strict minimum of
distance-from-`cur`, returning the chosen stop and the rest in original
order (the JS loop updates only on `dist < nearestDist`, so ties keep the
earlier stop; `splice` removes the chosen one). -/
def extractNearest (dist : Coords → Coords → ℚ) (cur : Coords) :
    (Nat × Delivery) → List (Nat × Delivery) → (Nat × Delivery) × List (Nat × Delivery)
  | best, [] => (best, [])
  | best, y :: ys =>
    if deliveryDist dist cur y.2 < deliveryDist dist cur best.2 then
      ((extractNearest dist cur y ys).1, best :: (extractNearest dist cur y ys).2)
    else
      ((extractNearest dist cur best ys).1, y :: (extractNearest dist cur best ys).2)

/-- The per-bucket `while (remaining.length > 0)` loop (aiRoute.service.js
lines 181–192), with an explicit iteration counter: each pass extracts the
nearest stop, appends its original index, and advances the current position
to its coordinates (or keeps the current position if it has none —
`nearest.location?.coordinates || currentLocation`, line 191).  The JS loop
runs exactly `remaining.length` times (each `splice` removes one element);
`processBucket` supplies that count as the structural counter. -/
def processBucketFuel (dist : Coords → Coords → ℚ) :
    Nat → Coords → List (Nat × Delivery) → List Nat × Coords
  | 0, cur, _ => ([], cur)
  | _ + 1, cur, [] => ([], cur)
  | fuel + 1, cur, x :: xs =>
    let chosen := (extractNearest dist cur x xs).1
    let rest := (extractNearest dist cur x xs).2
    let res := processBucketFuel dist fuel (chosen.2.coords.getD cur) rest
    (chosen.1 :: res.1, res.2)

/-- The per-bucket loop at its actual iteration count. -/
def processBucket (dist : Coords → Coords → ℚ) (cur : Coords)
    (l : List (Nat × Delivery)) : List Nat × Coords :=
  processBucketFuel dist l.length cur l

/-- One priority bucket: `sortedDeliveries.filter(d => d.priority === p)`
(aiRoute.service.js lines 170–175) over the index-annotated deliveries. -/
def priorityBucket (ds : List (Nat × Delivery)) (p : String) : List (Nat × Delivery) :=
  ds.filter (fun x => x.2.priority == p)

/-- The `optimizedSequence` computed by `fallbackOptimization`
(aiRoute.service.js lines 169–193): annotate each delivery with its original
index, bucket by priority, and run the nearest-neighbor loop over the four
buckets strictly in the order urgent, high, normal, low, threading the
current position through; the start is `startLocation?.coordinates ||
[0, 0]`. -/
def fallbackSequence (dist : Coords → Coords → ℚ) (startLocation : Option Coords)
    (deliveries : List Delivery) : List Nat :=
  let sorted := deliveries.enum
  let r1 := processBucket dist (startLocation.getD ((0 : ℚ), (0 : ℚ))) (priorityBucket sorted "urgent")
  let r2 := processBucket dist r1.2 (priorityBucket sorted "high")
  let r3 := processBucket dist r2.2 (priorityBucket sorted "normal")
  let r4 := processBucket dist r3.2 (priorityBucket sorted "low")
  r1.1 ++ r2.1 ++ r3.1 ++ r4.1

/-- Rank of a priority level in the order the claims state it (lower = served
first); unrecognized priorities rank last.  Statement-side helper. -/
def prioRank : String → Nat
  | "urgent" => 0
  | "high" => 1
  | "normal" => 2
  | "low" => 3
  | _ => 4

/-- The priority string of the delivery at original index `a`, or `""` when
`a` is out of range.  Statement-side helper. -/
def priorityOfIdx (deliveries : List Delivery) (a : Nat) : String :=
  ((deliveries.get? a).map Delivery.priority).getD ""

/-! # Theorems -/

/-! ## Claim C8 — point sampling -/

/-- Helper: the sampling loop emits exactly its remaining budget
`maxPoints - count` of points as long as every strided index it will visit is
in range. -/
theorem sampleFrom_length (coords : List α) (step maxPoints : Nat) :
    ∀ n i count, n = maxPoints - count → count < maxPoints → i < coords.length →
      i + step * (n - 1) < coords.length →
      (sampleFrom coords step maxPoints i count).length = n := by
  intro n
  induction n with
  | zero => intro i count hn hcount _ _; omega
  | succ m ih =>
    intro i count hn hcount hi hbound
    rw [sampleFrom, dif_pos hi]
    by_cases hlast : maxPoints ≤ count + 1
    · rw [if_pos hlast]
      simp only [List.length_singleton]
      omega
    · rw [if_neg hlast]
      rcases m with _ | m'
      · omega
      · have hmul : step * (m' + 1) = step * m' + step := Nat.mul_succ step m'
        simp only [Nat.add_sub_cancel] at hbound
        rw [hmul] at hbound
        have hi2 : i + step < coords.length := by
          have hq : 0 ≤ step * m' := Nat.zero_le _
          omega
        rw [List.length_cons,
          ih (i + step) (count + 1) (by omega) (by omega) hi2
            (by simp only [Nat.add_sub_cancel]; omega)]

/-- Helper: with a positive stride the sampling loop emits a subsequence of
the tail of the input it starts at, in original order. -/
theorem sampleFrom_sublist (coords : List α) (step maxPoints : Nat) (hstep : 1 ≤ step) :
    ∀ i count, (sampleFrom coords step maxPoints i count).Sublist (coords.drop i) := by
  have key : ∀ n i count, n = maxPoints - count →
      (sampleFrom coords step maxPoints i count).Sublist (coords.drop i) := by
    intro n
    induction n with
    | zero =>
      intro i count hn
      rw [sampleFrom]
      by_cases hi : i < coords.length
      · rw [dif_pos hi, if_pos (by omega), List.drop_eq_get_cons hi]
        exact (List.nil_sublist _).cons₂ _
      · rw [dif_neg hi]
        exact List.nil_sublist _
    | succ m ih =>
      intro i count hn
      rw [sampleFrom]
      by_cases hi : i < coords.length
      · rw [dif_pos hi]
        by_cases hlast : maxPoints ≤ count + 1
        · rw [if_pos hlast, List.drop_eq_get_cons hi]
          exact (List.nil_sublist _).cons₂ _
        · rw [if_neg hlast, List.drop_eq_get_cons hi]
          refine List.Sublist.cons₂ _ ?_
          exact (ih (i + step) (count + 1) (by omega)).trans
            (List.drop_sublist_drop_left coords (by omega))
      · rw [dif_neg hi]
        exact List.nil_sublist _
  exact fun i count => key (maxPoints - count) i count rfl

/-- C8: for `maxCount ≥ 1`, `samplePoints` returns the input unchanged when
its length is at most `maxCount`; on longer input it returns exactly
`maxCount` points forming an order-preserving subsequence of the input; and
`sampleRoutePoints` is the same function. -/
theorem samplePoints_claim (coords : List α) (maxCount : Nat) (hmax : 1 ≤ maxCount) :
    (coords.length ≤ maxCount → samplePoints coords maxCount = coords) ∧
    (maxCount < coords.length →
      (samplePoints coords maxCount).length = maxCount ∧
      (samplePoints coords maxCount).Sublist coords) ∧
    (∀ (cs : List Coords) (m : Nat), sampleRoutePoints cs m = samplePoints cs m) := by
  refine ⟨fun h => by rw [samplePoints, if_pos h], fun h => ?_, fun cs m => rfl⟩
  have hstep : 1 ≤ coords.length / maxCount :=
    (Nat.one_le_div_iff (by omega)).mpr (by omega)
  constructor
  · rw [samplePoints, if_neg (by omega)]
    refine sampleFrom_length coords _ maxCount maxCount 0 0 rfl (by omega) (by omega) ?_
    have h1 : coords.length / maxCount * maxCount ≤ coords.length :=
      Nat.div_mul_le_self coords.length maxCount
    obtain ⟨k, rfl⟩ : ∃ k, maxCount = k + 1 := ⟨maxCount - 1, by omega⟩
    rw [Nat.mul_succ] at h1
    simp only [Nat.add_sub_cancel]
    have hq : 0 ≤ coords.length / (k + 1) * k := Nat.zero_le _
    omega
  · rw [samplePoints, if_neg (by omega)]
    simpa using sampleFrom_sublist coords _ maxCount hstep 0 0

/-- Witness for C8 at the three-point list `[1, 2, 3]` sampled to two
points. -/
theorem samplePoints_claim_witness :
    (samplePoints [(1 : ℚ), 2, 3] 2).length = 2 ∧
    (samplePoints [(1 : ℚ), 2, 3] 2).Sublist [(1 : ℚ), 2, 3] :=
  (samplePoints_claim [(1 : ℚ), 2, 3] 2 (by decide)).2.1 (by decide)

/-! ## Claim C9 — congestion classifier -/

/-- Helper: on two present, nonzero speeds the classifier is the pure ratio
chain. -/
theorem calculateCongestionLevel_some {c f : ℚ} (hc : c ≠ 0) (hf : f ≠ 0) :
    calculateCongestionLevel (some c) (some f) =
      if c / f ≥ 9/10 then "free"
      else if c / f ≥ 7/10 then "light"
      else if c / f ≥ 5/10 then "moderate"
      else if c / f ≥ 3/10 then "heavy"
      else "severe" := by
  simp only [calculateCongestionLevel, Option.getD_some]
  rw [if_neg (not_or.mpr ⟨hc, hf⟩)]

/-- C9: `calculateCongestionLevel` returns `"unknown"` exactly when a speed is
zero or missing, and otherwise classifies the ratio `current/freeFlow` by the
documented thresholds; the five fixture pairs evaluate as the spec lists
them. -/
theorem congestionLevel_matches_spec :
    (∀ f, calculateCongestionLevel none f = "unknown") ∧
    (∀ c, calculateCongestionLevel c none = "unknown") ∧
    (∀ f, calculateCongestionLevel (some 0) f = "unknown") ∧
    (∀ c, calculateCongestionLevel c (some 0) = "unknown") ∧
    (∀ c f : ℚ, c ≠ 0 → f ≠ 0 →
      ((9:ℚ)/10 ≤ c / f → calculateCongestionLevel (some c) (some f) = "free") ∧
      ((7:ℚ)/10 ≤ c / f → c / f < 9/10 → calculateCongestionLevel (some c) (some f) = "light") ∧
      ((5:ℚ)/10 ≤ c / f → c / f < 7/10 → calculateCongestionLevel (some c) (some f) = "moderate") ∧
      ((3:ℚ)/10 ≤ c / f → c / f < 5/10 → calculateCongestionLevel (some c) (some f) = "heavy") ∧
      (c / f < 3/10 → calculateCongestionLevel (some c) (some f) = "severe")) ∧
    calculateCongestionLevel (some 90) (some 100) = "free" ∧
    calculateCongestionLevel (some 75) (some 100) = "light" ∧
    calculateCongestionLevel (some 50) (some 100) = "moderate" ∧
    calculateCongestionLevel (some 30) (some 100) = "heavy" ∧
    calculateCongestionLevel (some 20) (some 100) = "severe" := by
  refine ⟨fun f => by simp [calculateCongestionLevel],
          fun c => by simp [calculateCongestionLevel],
          fun f => by simp [calculateCongestionLevel],
          fun c => by simp [calculateCongestionLevel],
          ?_,
          by rw [calculateCongestionLevel_some (by norm_num) (by norm_num)]; norm_num,
          by rw [calculateCongestionLevel_some (by norm_num) (by norm_num)]; norm_num,
          by rw [calculateCongestionLevel_some (by norm_num) (by norm_num)]; norm_num,
          by rw [calculateCongestionLevel_some (by norm_num) (by norm_num)]; norm_num,
          by rw [calculateCongestionLevel_some (by norm_num) (by norm_num)]; norm_num⟩
  intro c f hc hf
  rw [calculateCongestionLevel_some hc hf]
  refine ⟨fun h => if_pos h, fun h1 h2 => ?_, fun h1 h2 => ?_, fun h1 h2 => ?_, fun h => ?_⟩
  · rw [if_neg (by exact not_le.mpr h2), if_pos h1]
  · rw [if_neg (by exact not_le.mpr (by linarith)), if_neg (by exact not_le.mpr h2), if_pos h1]
  · rw [if_neg (by exact not_le.mpr (by linarith)), if_neg (by exact not_le.mpr (by linarith)),
      if_neg (by exact not_le.mpr h2), if_pos h1]
  · rw [if_neg (by exact not_le.mpr (by linarith)), if_neg (by exact not_le.mpr (by linarith)),
      if_neg (by exact not_le.mpr (by linarith)), if_neg (by exact not_le.mpr h)]

/-- Witness for C9: the general part of `congestionLevel_matches_spec`
instantiated at `(60, 100)`. -/
theorem congestionLevel_matches_spec_witness :
    calculateCongestionLevel (some 60) (some 100) = "moderate" :=
  ((congestionLevel_matches_spec.2.2.2.2.1 60 100 (by norm_num) (by norm_num)).2.2.1
    (by norm_num) (by norm_num))

/-! ## Claim C10 — weather code mapping -/

/-- Helper: the fog band of the weather-code mapper. -/
theorem mapWeatherCode_fog {c : Int} (h1 : 45 ≤ c) (h2 : c ≤ 48) :
    mapWeatherCode (some c) = "fog" := by
  have k0 : ¬ c = 0 := by omega
  have k1 : ¬ c ≤ 3 := by omega
  simp only [mapWeatherCode, if_neg k0, if_neg k1, if_pos (And.intro h1 h2)]

/-- Helper: the light-to-moderate rain band 61–64 of the weather-code
mapper. -/
theorem mapWeatherCode_rain {c : Int} (h1 : 61 ≤ c) (h2 : c ≤ 64) :
    mapWeatherCode (some c) = "rain" := by
  have k0 : ¬ c = 0 := by omega
  have k1 : ¬ c ≤ 3 := by omega
  have k2 : ¬ (45 ≤ c ∧ c ≤ 48) := by omega
  have k3 : ¬ (51 ≤ c ∧ c ≤ 55) := by omega
  have k4 : ¬ (56 ≤ c ∧ c ≤ 57) := by omega
  have k5 : 61 ≤ c ∧ c ≤ 65 := by omega
  have k6 : ¬ 65 ≤ c := by omega
  simp only [mapWeatherCode, if_neg k0, if_neg k1, if_neg k2, if_neg k3, if_neg k4,
    if_pos k5, if_neg k6]

/-- Helper: the hail band 96–99 of the weather-code mapper. -/
theorem mapWeatherCode_hail {c : Int} (h1 : 96 ≤ c) (h2 : c ≤ 99) :
    mapWeatherCode (some c) = "hail" := by
  have k0 : ¬ c = 0 := by omega
  have k1 : ¬ c ≤ 3 := by omega
  have k2 : ¬ (45 ≤ c ∧ c ≤ 48) := by omega
  have k3 : ¬ (51 ≤ c ∧ c ≤ 55) := by omega
  have k4 : ¬ (56 ≤ c ∧ c ≤ 57) := by omega
  have k5 : ¬ (61 ≤ c ∧ c ≤ 65) := by omega
  have k6 : ¬ (66 ≤ c ∧ c ≤ 67) := by omega
  have k7 : ¬ (71 ≤ c ∧ c ≤ 77) := by omega
  have k8 : ¬ (80 ≤ c ∧ c ≤ 82) := by omega
  have k9 : ¬ (85 ≤ c ∧ c ≤ 86) := by omega
  have ka : 95 ≤ c ∧ c ≤ 99 := by omega
  simp only [mapWeatherCode, if_neg k0, if_neg k1, if_neg k2, if_neg k3, if_neg k4,
    if_neg k5, if_neg k6, if_neg k7, if_neg k8, if_neg k9, if_pos ka, if_pos h1]

set_option maxHeartbeats 1600000 in
/-- C10: `mapWeatherCode` always lands in the enumerated condition set, and
the documented thresholds hold: 0 → clear, 2 → cloudy, 45–48 → fog,
61–64 → rain, 65 → heavy_rain, 95 → storm, 96–99 → hail. -/
theorem mapWeatherCode_thresholds :
    (∀ code : Option Int, mapWeatherCode code ∈ conditionSet) ∧
    mapWeatherCode (some 0) = "clear" ∧
    mapWeatherCode (some 2) = "cloudy" ∧
    (∀ c : Int, 45 ≤ c → c ≤ 48 → mapWeatherCode (some c) = "fog") ∧
    (∀ c : Int, 61 ≤ c → c ≤ 64 → mapWeatherCode (some c) = "rain") ∧
    mapWeatherCode (some 65) = "heavy_rain" ∧
    mapWeatherCode (some 95) = "storm" ∧
    (∀ c : Int, 96 ≤ c → c ≤ 99 → mapWeatherCode (some c) = "hail") := by
  refine ⟨?_, by decide, by decide, ?_, ?_, by decide, by decide, ?_⟩
  · intro code
    match code with
    | none => decide
    | some c =>
      simp only [mapWeatherCode]
      split_ifs <;> decide
  · exact fun c h1 h2 => mapWeatherCode_fog h1 h2
  · exact fun c h1 h2 => mapWeatherCode_rain h1 h2
  · exact fun c h1 h2 => mapWeatherCode_hail h1 h2

/-- Witness for C10: the ranged parts of `mapWeatherCode_thresholds`
instantiated at codes 46, 63 and 97. -/
theorem mapWeatherCode_thresholds_witness :
    mapWeatherCode (some 46) = "fog" ∧ mapWeatherCode (some 63) = "rain" ∧
    mapWeatherCode (some 97) = "hail" :=
  ⟨mapWeatherCode_thresholds.2.2.2.1 46 (by decide) (by decide),
   mapWeatherCode_thresholds.2.2.2.2.1 63 (by decide) (by decide),
   mapWeatherCode_thresholds.2.2.2.2.2.2.2 97 (by decide) (by decide)⟩

/-! ## Claim C3 — scan scheduler re-entrancy -/

/-- C3 (failing run): the cron handler of server.js lines 132–140 has no
re-entrancy guard, so a timer firing while one scan cycle is still running
starts a second concurrent cycle: from the idle state, one firing leaves one
cycle running, and a second firing before any `finish` leaves two running. -/
theorem cron_overlapping_cycles :
    cronRun 0 [CronEvent.fire] = 1 ∧
    cronRun 0 [CronEvent.fire, CronEvent.fire] = 2 :=
  ⟨rfl, rfl⟩

/-! ## Claim C2 — the delay rule of the recalculation decision -/

/-- C2 (counterexample): with traffic data absent and an ETA delay of 40
minutes, `shouldRecalculate` accumulates no reason at all and does not
suggest recalculation — the `delayMinutes > 30` rule is nested inside the
`if (trafficData)` block, so it is not evaluated independently of traffic
presence as the claim states. -/
theorem shouldRecalculate_skips_delay_without_traffic :
    shouldRecalculateReasons none none ⟨0, 0, 40⟩ = [] ∧
    (shouldRecalculate none none ⟨0, 0, 40⟩).suggested = false :=
  ⟨rfl, rfl⟩

/-- C2 (amended): whenever traffic data is *present* and
`eta.delayMinutes > 30`, `shouldRecalculate` accumulates the delay reason
carrying the exact minute count and therefore suggests recalculation; when
traffic data is absent the delay rule is skipped
(`shouldRecalculate_skips_delay_without_traffic`). -/
theorem shouldRecalculate_delay_reason (t : TrafficData) (weather : Option WeatherData)
    (eta : UpdatedETA) (h : 30 < eta.delayMinutes) :
    ("Significant delay of " ++ toString eta.delayMinutes ++ " minutes")
      ∈ shouldRecalculateReasons (some t) weather eta ∧
    (shouldRecalculate (some t) weather eta).suggested = true := by
  have hmem : ("Significant delay of " ++ toString eta.delayMinutes ++ " minutes")
      ∈ shouldRecalculateReasons (some t) weather eta := by
    simp only [shouldRecalculateReasons, if_pos h]
    exact List.mem_append_left _ (List.mem_append_left _
      (List.mem_append_right _ (List.mem_singleton_self _)))
  refine ⟨hmem, ?_⟩
  have hne : shouldRecalculateReasons (some t) weather eta ≠ [] := List.ne_nil_of_mem hmem
  simp [shouldRecalculate, List.isEmpty_iff, hne]

/-- Witness for C2's amended theorem at a concrete traffic record and a
40-minute delay. -/
theorem shouldRecalculate_delay_reason_witness :
    ("Significant delay of " ++ toString (40 : Int) ++ " minutes")
      ∈ shouldRecalculateReasons (some ⟨none, none, "free", 0, 0, none⟩) none ⟨0, 0, 40⟩ ∧
    (shouldRecalculate (some ⟨none, none, "free", 0, 0, none⟩) none ⟨0, 0, 40⟩).suggested = true :=
  shouldRecalculate_delay_reason ⟨none, none, "free", 0, 0, none⟩ none ⟨0, 0, 40⟩ (by decide)

/-! ## Claim C1 — AI response sequence validation -/

/-- C1 (counterexample): `parseAIResponse` accepts the sequence `[0, 0]`
against two deliveries even though it is not a permutation of `0..1` — the
validation checks only that each entry is an in-range integer, never the
count or duplicates. -/
theorem parseAIResponse_accepts_duplicates :
    parseAIResponseAccepts (some [0, 0]) 2 = true ∧
    ¬ List.Perm [(0 : ℚ), 0] ((List.range 2).map (fun k : ℕ => (k : ℚ))) := by
  refine ⟨by decide, fun hperm => ?_⟩
  have h1 : (1 : ℚ) ∈ [(0 : ℚ), 0] :=
    hperm.mem_iff.mpr (List.mem_map.mpr ⟨1, by simp, by norm_num⟩)
  simp at h1

/-- C1 (amended): `parseAIResponse` accepts a response exactly when its
`sequence` field is present as an array and every entry is an integer `q`
with `0 ≤ q < n`; the entry count and duplicate freedom are not checked. -/
theorem parseAIResponseAccepts_iff (sequence : Option (List ℚ)) (n : Nat) :
    parseAIResponseAccepts sequence n = true ↔
      ∃ s, sequence = some s ∧ ∀ q ∈ s, q.den = 1 ∧ 0 ≤ q ∧ q < n := by
  cases sequence with
  | none => simp [parseAIResponseAccepts]
  | some s =>
    simp [parseAIResponseAccepts, sequenceEntryValid, List.all_eq_true, and_assoc]

/-! ## Claim C5 — manual re-optimization gate -/

/-- Helper: the `shouldReoptimize` boolean of aiRoute.service.js lines
281–284 holds exactly when traffic delay exceeds 15 minutes, the current
weather condition is storm or hail, or some incident has severity severe. -/
theorem shouldReoptimizeCheck_iff (trafficUpdate : Option TrafficData)
    (weatherUpdate : Option WeatherData) :
    shouldReoptimizeCheck trafficUpdate weatherUpdate = true ↔
      ((∃ t, trafficUpdate = some t ∧ 15 < t.delayMinutes) ∨
       (∃ w cur c, weatherUpdate = some w ∧ w.current = some cur ∧
         cur.condition = some c ∧ (c = "storm" ∨ c = "hail")) ∨
       (∃ t incs, trafficUpdate = some t ∧ t.incidents = some incs ∧
         ∃ i ∈ incs, i.severity = "severe")) := by
  rcases trafficUpdate with _ | t
  · rcases weatherUpdate with _ | w
    · simp [shouldReoptimizeCheck]
    · rcases w with ⟨wcur, wfc, wal⟩
      rcases wcur with _ | cur
      · simp [shouldReoptimizeCheck]
      · rcases cur with ⟨cond, vis⟩
        rcases cond with _ | c
        · simp [shouldReoptimizeCheck]
        · simp [shouldReoptimizeCheck, List.contains_iff_exists_mem_beq]
  · rcases t with ⟨ts, fs, cl, cp, dm, incs⟩
    rcases incs with _ | incs
    · rcases weatherUpdate with _ | w
      · simp [shouldReoptimizeCheck]
      · rcases w with ⟨wcur, wfc, wal⟩
        rcases wcur with _ | cur
        · simp [shouldReoptimizeCheck]
        · rcases cur with ⟨cond, vis⟩
          rcases cond with _ | c
          · simp [shouldReoptimizeCheck]
          · simp [shouldReoptimizeCheck, List.contains_iff_exists_mem_beq]
    · rcases weatherUpdate with _ | w
      · simp [shouldReoptimizeCheck]
      · rcases w with ⟨wcur, wfc, wal⟩
        rcases wcur with _ | cur
        · simp [shouldReoptimizeCheck]
        · rcases cur with ⟨cond, vis⟩
          rcases cond with _ | c
          · simp [shouldReoptimizeCheck]
          · simp [shouldReoptimizeCheck, List.contains_iff_exists_mem_beq]
            aesop

/-- C5: `reoptimizeRoute` takes the optimizer-invoking path exactly when at
least one undelivered stop remains and at least one trigger holds: traffic
delay over 15 minutes, current weather condition storm or hail, or an
incident of severity severe; otherwise it reports a no-re-optimization
result without calling the optimizer. -/
theorem reoptimizeRoute_gate (deliveryIds : List String)
    (completedDeliveries : Option (List String))
    (trafficUpdate : Option TrafficData) (weatherUpdate : Option WeatherData) :
    reoptimizeRoute deliveryIds completedDeliveries trafficUpdate weatherUpdate =
      ReoptOutcome.reoptimized ↔
      ((∃ d ∈ deliveryIds, d ∉ completedDeliveries.getD []) ∧
       ((∃ t, trafficUpdate = some t ∧ 15 < t.delayMinutes) ∨
        (∃ w cur c, weatherUpdate = some w ∧ w.current = some cur ∧
          cur.condition = some c ∧ (c = "storm" ∨ c = "hail")) ∨
        (∃ t incs, trafficUpdate = some t ∧ t.incidents = some incs ∧
          ∃ i ∈ incs, i.severity = "severe"))) := by
  have hA : (deliveryIds.filter
        (fun d => !((completedDeliveries.getD []).contains d))).length = 0 ↔
      ¬ ∃ d ∈ deliveryIds, d ∉ completedDeliveries.getD [] := by
    rw [List.length_eq_zero, List.filter_eq_nil_iff]
    simp [List.contains_iff_exists_mem_beq]
  simp only [reoptimizeRoute]
  by_cases h1 : (deliveryIds.filter
      (fun d => !((completedDeliveries.getD []).contains d))).length = 0
  · rw [if_pos h1]
    exact iff_of_false (by simp) (fun h => (hA.mp h1) h.1)
  · rw [if_neg h1]
    by_cases h2 : shouldReoptimizeCheck trafficUpdate weatherUpdate = true
    · rw [h2]
      simp only [Bool.not_true, Bool.false_eq_true, if_false]
      exact iff_of_true (by trivial)
        ⟨not_not.mp (fun hE => h1 (hA.mpr hE)), (shouldReoptimizeCheck_iff _ _).mp h2⟩
    · have h2' : shouldReoptimizeCheck trafficUpdate weatherUpdate = false := by
        revert h2; cases shouldReoptimizeCheck trafficUpdate weatherUpdate <;> simp
      rw [h2']
      simp only [Bool.not_false, if_true]
      exact iff_of_false (by simp)
        (fun h => h2 ((shouldReoptimizeCheck_iff _ _).mpr h.2))

/-! ## Claim C4 — partial provider failure still yields a persisted snapshot -/

/-- Helper: with nonempty coordinates, a failed traffic fetch and a
successful weather fetch, `updateRouteData` resolves with a snapshot whose
traffic slot is `none` and whose weather slot is built from the fetched
weather. -/
theorem updateRouteData_eq (route : Route) (e : String) (w : WeatherFetch)
    (hc : routeCoordinates route ≠ []) :
    updateRouteData route (Except.error e) (Except.ok w) =
      Except.ok (some
        { trafficData := none
          weatherData := some { current := w.current
                                forecast := w.hourlyForecast.take 6
                                alerts := some w.alerts }
          recalculationSuggested :=
            (shouldRecalculate none
              (some { current := w.current
                      forecast := w.hourlyForecast.take 6
                      alerts := some w.alerts })
              (calculateUpdatedETA route none)).suggested
          recalculationReason :=
            (shouldRecalculate none
              (some { current := w.current
                      forecast := w.hourlyForecast.take 6
                      alerts := some w.alerts })
              (calculateUpdatedETA route none)).reason
          updatedETA := calculateUpdatedETA route none }) := by
  have hne : (routeCoordinates route).isEmpty = false := by
    simp [hc]
  have hlt : (routeCoordinates route).length / 2 < (routeCoordinates route).length :=
    Nat.div_lt_self (List.length_pos.mpr hc) one_lt_two
  have hmid : (routeCoordinates route)[(routeCoordinates route).length / 2]? =
      some ((routeCoordinates route).get ⟨(routeCoordinates route).length / 2, hlt⟩) := by
    rw [List.getElem?_eq_getElem hlt]
    simp [List.get_eq_getElem]
  simp [updateRouteData, hne, hmid]

/-- C4: for a route with coordinates whose traffic fetch fails while its
weather fetch succeeds, the per-route unit still persists a snapshot with
`trafficData = null` and `weatherData` populated, resolves successfully, and
is counted as a success (never as a failed unit) by the cycle's
`Promise.allSettled` aggregation. -/
theorem updateRouteData_partial_failure (route : Route) (e : String) (w : WeatherFetch)
    (hc : routeCoordinates route ≠ []) :
    ∃ snap, updateRouteData route (Except.error e) (Except.ok w) = Except.ok (some snap) ∧
      snap.trafficData = none ∧
      snap.weatherData = some { current := w.current
                                forecast := w.hourlyForecast.take 6
                                alerts := some w.alerts } ∧
      ∀ rs, settledCounts (rs ++ [updateRouteData route (Except.error e) (Except.ok w)]) =
        ((settledCounts rs).1 + 1, (settledCounts rs).2) := by
  refine ⟨_, updateRouteData_eq route e w hc, rfl, rfl, fun rs => ?_⟩
  simp [settledCounts, List.countP_append, updateRouteData_eq route e w hc,
    List.countP_cons, Except.isOk, Except.toBool]

/-- Witness for C4: a one-point route, a timed-out traffic fetch, an empty
but successful weather fetch. -/
theorem updateRouteData_partial_failure_witness :
    ∃ snap, updateRouteData ⟨some [((0 : ℚ), (0 : ℚ))], none, none, none, 0, "planned"⟩
        (Except.error "timeout") (Except.ok ⟨none, [], []⟩) = Except.ok (some snap) ∧
      snap.trafficData = none ∧
      snap.weatherData = some { current := none
                                forecast := List.take 6 []
                                alerts := some [] } ∧
      ∀ rs, settledCounts (rs ++
          [updateRouteData ⟨some [((0 : ℚ), (0 : ℚ))], none, none, none, 0, "planned"⟩
            (Except.error "timeout") (Except.ok ⟨none, [], []⟩)]) =
        ((settledCounts rs).1 + 1, (settledCounts rs).2) :=
  updateRouteData_partial_failure _ "timeout" _ (by decide)

/-! ## Claims C6 & C7 — fallback optimizer sequencing -/

/-- Helper: the selection scan returns the non-chosen stops, so it preserves
the count. -/
theorem extractNearest_length (dist : Coords → Coords → ℚ) (cur : Coords)
    (b : Nat × Delivery) (ys : List (Nat × Delivery)) :
    ((extractNearest dist cur b ys).2).length = ys.length := by
  induction ys generalizing b with
  | nil => rfl
  | cons y ys ih =>
    simp only [extractNearest]
    split <;> simp [ih]

/-- Helper: chosen stop plus remainder is a permutation of the scanned
stops. -/
theorem extractNearest_perm (dist : Coords → Coords → ℚ) (cur : Coords)
    (b : Nat × Delivery) (ys : List (Nat × Delivery)) :
    List.Perm ((extractNearest dist cur b ys).1 :: (extractNearest dist cur b ys).2)
      (b :: ys) := by
  induction ys generalizing b with
  | nil => exact List.Perm.refl _
  | cons y ys ih =>
    simp only [extractNearest]
    split
    · dsimp only
      exact (List.Perm.swap b _ _).trans ((ih y).cons b)
    · dsimp only
      exact ((List.Perm.swap y _ _).trans ((ih b).cons y)).trans (List.Perm.swap b y ys)

/-- Helper: run at its exact iteration count, the per-bucket loop emits a
permutation of the bucket's original indices. -/
theorem processBucketFuel_perm (dist : Coords → Coords → ℚ) :
    ∀ (fuel : Nat) (l : List (Nat × Delivery)) (cur : Coords), l.length = fuel →
      List.Perm (processBucketFuel dist fuel cur l).1 (l.map Prod.fst) := by
  intro fuel
  induction fuel with
  | zero =>
    intro l cur h
    rw [List.length_eq_zero] at h
    subst h
    exact List.Perm.refl _
  | succ m ih =>
    intro l cur h
    rcases l with _ | ⟨x, xs⟩
    · exact List.Perm.refl _
    · simp only [processBucketFuel]
      have hlen : (extractNearest dist cur x xs).2.length = m := by
        rw [extractNearest_length]
        simpa using h
      have h1 := ih (extractNearest dist cur x xs).2
        ((extractNearest dist cur x xs).1.2.coords.getD cur) hlen
      have h2 := (extractNearest_perm dist cur x xs).map Prod.fst
      exact (h1.cons _).trans h2

/-- Helper: the per-bucket loop emits a permutation of the bucket's original
indices. -/
theorem processBucket_perm (dist : Coords → Coords → ℚ) (cur : Coords)
    (l : List (Nat × Delivery)) :
    List.Perm (processBucket dist cur l).1 (l.map Prod.fst) :=
  processBucketFuel_perm dist l.length l cur rfl

/-- Helper: every index the loop emits for the priority-`p` bucket points at
a delivery of priority `p`. -/
theorem mem_processBucket (dist : Coords → Coords → ℚ) (cur : Coords)
    (ds : List Delivery) (p : String) (a : Nat)
    (ha : a ∈ (processBucket dist cur (priorityBucket ds.enum p)).1) :
    priorityOfIdx ds a = p ∧ a < ds.length := by
  have ha2 : a ∈ (priorityBucket ds.enum p).map Prod.fst :=
    (processBucket_perm dist cur _).mem_iff.mp ha
  obtain ⟨x, hx, rfl⟩ := List.mem_map.mp ha2
  obtain ⟨hxe, hxp⟩ := List.mem_filter.mp hx
  have hq : ds.get? x.1 = some x.2 := List.mem_enum_iff_get?.mp hxe
  have hlt : x.1 < ds.length := by
    obtain ⟨h, -⟩ := List.get?_eq_some.mp hq
    exact h
  refine ⟨?_, hlt⟩
  rw [priorityOfIdx, hq]
  simpa using hxp

/-- Helper: concatenating two disjoint filters of the same list is a
permutation of the filter of the disjunction. -/
theorem filter_or_perm (l : List α) (p q : α → Bool)
    (hpq : ∀ a ∈ l, p a = true → q a = false) :
    List.Perm (l.filter p ++ l.filter q) (l.filter (fun a => p a || q a)) := by
  induction l with
  | nil => exact List.Perm.refl _
  | cons x l ih =>
    have ih' := ih (fun a ha => hpq a (List.mem_cons_of_mem _ ha))
    by_cases hp : p x = true
    · have hq : q x = false := hpq x (List.mem_cons_self _ _) hp
      simp only [List.filter_cons, hp, hq, Bool.true_or, if_true, if_false,
        Bool.false_eq_true]
      exact ih'.cons x
    · have hp' : p x = false := by revert hp; cases p x <;> simp
      by_cases hq : q x = true
      · simp only [List.filter_cons, hp', hq, Bool.false_or, if_true, if_false,
          Bool.false_eq_true]
        exact List.perm_middle.trans (ih'.cons x)
      · have hq' : q x = false := by revert hq; cases q x <;> simp
        simp only [List.filter_cons, hp', hq', Bool.false_or, if_false,
          Bool.false_eq_true]
        exact ih'

/-- Helper: the four priority tests, chained as the fallback sequence chains
its buckets, recognize exactly membership in `recognizedPriorities`. -/
theorem priorityChain_eq_decide (s : String) :
    (((s == "urgent" || s == "high") || s == "normal") || s == "low")
      = decide (s ∈ recognizedPriorities) := by
  by_cases h : s ∈ recognizedPriorities
  · rw [decide_eq_true h]
    have h' : s = "urgent" ∨ s = "high" ∨ s = "normal" ∨ s = "low" := by
      simpa [recognizedPriorities] using h
    rcases h' with h1 | h1 | h1 | h1 <;> rw [h1] <;> rfl
  · rw [decide_eq_false h]
    have h1 : s ≠ "urgent" := fun hh => h (by simp [recognizedPriorities, hh])
    have h2 : s ≠ "high" := fun hh => h (by simp [recognizedPriorities, hh])
    have h3 : s ≠ "normal" := fun hh => h (by simp [recognizedPriorities, hh])
    have h4 : s ≠ "low" := fun hh => h (by simp [recognizedPriorities, hh])
    rw [beq_eq_false_iff_ne.mpr h1, beq_eq_false_iff_ne.mpr h2,
      beq_eq_false_iff_ne.mpr h3, beq_eq_false_iff_ne.mpr h4]
    rfl

/-- C7: the fallback optimizer's sequence is exactly the original indices of
the deliveries whose priority is one of urgent / high / normal / low, each
exactly once; deliveries with any other (or missing) priority are silently
omitted. -/
theorem fallbackSequence_exact_indices (dist : Coords → Coords → ℚ)
    (start : Option Coords) (ds : List Delivery) :
    List.Perm (fallbackSequence dist start ds)
      ((ds.enum.filter (fun x => decide (x.2.priority ∈ recognizedPriorities))).map
        Prod.fst) ∧
    (fallbackSequence dist start ds).Nodup := by
  have hdisj : ∀ (p q : String), p ≠ q →
      ∀ x : Nat × Delivery, (x.2.priority == p) = true → (x.2.priority == q) = false := by
    intro p q hpq x hx
    have : x.2.priority = p := by simpa using hx
    exact beq_eq_false_iff_ne.mpr (by rw [this]; exact hpq)
  have hperm : List.Perm (fallbackSequence dist start ds)
      ((ds.enum.filter (fun x => decide (x.2.priority ∈ recognizedPriorities))).map
        Prod.fst) := by
    -- chain the four bucket permutations over the append
    have step : ∀ cur1 cur2 cur3 cur4,
        List.Perm
          ((processBucket dist cur1 (priorityBucket ds.enum "urgent")).1 ++
            (processBucket dist cur2 (priorityBucket ds.enum "high")).1 ++
            (processBucket dist cur3 (priorityBucket ds.enum "normal")).1 ++
            (processBucket dist cur4 (priorityBucket ds.enum "low")).1)
          ((ds.enum.filter (fun x => decide (x.2.priority ∈ recognizedPriorities))).map
            Prod.fst) := by
      intro cur1 cur2 cur3 cur4
      have p1 := processBucket_perm dist cur1 (priorityBucket ds.enum "urgent")
      have p2 := processBucket_perm dist cur2 (priorityBucket ds.enum "high")
      have p3 := processBucket_perm dist cur3 (priorityBucket ds.enum "normal")
      have p4 := processBucket_perm dist cur4 (priorityBucket ds.enum "low")
      have f12 := filter_or_perm ds.enum
        (fun x => x.2.priority == "urgent") (fun x => x.2.priority == "high")
        (fun a _ => hdisj "urgent" "high" (by decide) a)
      have f123 := filter_or_perm ds.enum
        (fun x => x.2.priority == "urgent" || x.2.priority == "high")
        (fun x => x.2.priority == "normal")
        (fun a _ ha => by
          rcases Bool.or_eq_true_iff.mp ha with h | h
          · exact hdisj "urgent" "normal" (by decide) a h
          · exact hdisj "high" "normal" (by decide) a h)
      have f1234 := filter_or_perm ds.enum
        (fun x => (x.2.priority == "urgent" || x.2.priority == "high") ||
          x.2.priority == "normal")
        (fun x => x.2.priority == "low")
        (fun a _ ha => by
          rcases Bool.or_eq_true_iff.mp ha with h | h
          · rcases Bool.or_eq_true_iff.mp h with h' | h'
            · exact hdisj "urgent" "low" (by decide) a h'
            · exact hdisj "high" "low" (by decide) a h'
          · exact hdisj "normal" "low" (by decide) a h)
      have hfinal : ds.enum.filter
            (fun x => ((x.2.priority == "urgent" || x.2.priority == "high") ||
              x.2.priority == "normal") || x.2.priority == "low")
          = ds.enum.filter (fun x => decide (x.2.priority ∈ recognizedPriorities)) :=
        List.filter_congr (fun x _ => priorityChain_eq_decide x.2.priority)
      have hbig : List.Perm
          (((priorityBucket ds.enum "urgent" ++ priorityBucket ds.enum "high") ++
            priorityBucket ds.enum "normal") ++ priorityBucket ds.enum "low")
          (ds.enum.filter (fun x => decide (x.2.priority ∈ recognizedPriorities))) := by
        rw [← hfinal]
        exact (((f12.append (List.Perm.refl _)).trans f123).append
          (List.Perm.refl _)).trans f1234
      have hmaps := hbig.map Prod.fst
      rw [List.map_append, List.map_append, List.map_append] at hmaps
      exact (((p1.append p2).append p3).append p4).trans hmaps
    simp only [fallbackSequence]
    exact step _ _ _ _
  refine ⟨hperm, ?_⟩
  have hsub : List.Sublist
      ((ds.enum.filter
        (fun x => decide (x.2.priority ∈ recognizedPriorities))).map Prod.fst)
      (ds.enum.map Prod.fst) := (List.filter_sublist _).map _
  have hnd : ((ds.enum.filter
      (fun x => decide (x.2.priority ∈ recognizedPriorities))).map Prod.fst).Nodup := by
    rw [List.enum_map_fst] at hsub
    exact (List.nodup_range ds.length).sublist hsub
  exact hperm.symm.nodup hnd

/-- Helper: along the fallback sequence, the priority rank of the stops is
non-decreasing — the four buckets are emitted strictly in priority order. -/
theorem fallback_rank_sorted (dist : Coords → Coords → ℚ) (start : Option Coords)
    (ds : List Delivery) :
    ((fallbackSequence dist start ds).map
      (fun a => prioRank (priorityOfIdx ds a))).Pairwise (· ≤ ·) := by
  have hm : ∀ (p : String) (cur : Coords),
      ∀ b ∈ (((processBucket dist cur (priorityBucket ds.enum p)).1).map
        (fun a => prioRank (priorityOfIdx ds a))), b = prioRank p := by
    intro p cur b hb
    obtain ⟨a, ha, rfl⟩ := List.mem_map.mp hb
    rw [(mem_processBucket dist cur ds p a ha).1]
  have hconst : ∀ (l : List Nat) (c : Nat), (∀ b ∈ l, b = c) → l.Pairwise (· ≤ ·) := by
    intro l c h
    exact List.pairwise_of_forall_mem_list (fun a ha b hb => by rw [h a ha, h b hb])
  have happ : ∀ (l1 l2 : List Nat), l1.Pairwise (· ≤ ·) → l2.Pairwise (· ≤ ·) →
      (∀ a ∈ l1, ∀ b ∈ l2, a ≤ b) → (l1 ++ l2).Pairwise (· ≤ ·) :=
    fun l1 l2 h1 h2 hc => List.pairwise_append.mpr ⟨h1, h2, hc⟩
  simp only [fallbackSequence]
  rw [List.map_append, List.map_append, List.map_append]
  apply happ
  · apply happ
    · apply happ
      · exact hconst _ (prioRank "urgent") (hm "urgent" _)
      · exact hconst _ (prioRank "high") (hm "high" _)
      · intro a ha b hb
        rw [hm "urgent" _ a ha, hm "high" _ b hb]
        decide
    · exact hconst _ (prioRank "normal") (hm "normal" _)
    · intro a ha b hb
      rcases List.mem_append.mp ha with h | h
      · rw [hm "urgent" _ a h, hm "normal" _ b hb]
        decide
      · rw [hm "high" _ a h, hm "normal" _ b hb]
        decide
  · exact hconst _ (prioRank "low") (hm "low" _)
  · intro a ha b hb
    rcases List.mem_append.mp ha with h | h
    · rcases List.mem_append.mp h with h2 | h2
      · rw [hm "urgent" _ a h2, hm "low" _ b hb]
        decide
      · rw [hm "high" _ a h2, hm "low" _ b hb]
        decide
    · rw [hm "normal" _ a h, hm "low" _ b hb]
      decide

/-- C6: for deliveries all carrying one of the four recognized priorities,
the fallback sequence places every stop of strictly smaller priority rank
(urgent < high < normal < low) before every stop of larger rank, whatever
the distance function, start location and stop geography. -/
theorem fallbackSequence_priority_order (dist : Coords → Coords → ℚ)
    (start : Option Coords) (ds : List Delivery)
    (hall : ∀ d ∈ ds, d.priority ∈ recognizedPriorities)
    (i j : Nat)
    (hi : i < (fallbackSequence dist start ds).length)
    (hj : j < (fallbackSequence dist start ds).length)
    (hlt : prioRank (priorityOfIdx ds ((fallbackSequence dist start ds).get ⟨i, hi⟩)) <
      prioRank (priorityOfIdx ds ((fallbackSequence dist start ds).get ⟨j, hj⟩))) :
    i < j := by
  by_contra hij
  push_neg at hij
  have hsorted := fallback_rank_sorted dist start ds
  rcases Nat.eq_or_lt_of_le hij with heq | hltj
  · subst heq
    exact absurd hlt (lt_irrefl _)
  · have hj' : j < ((fallbackSequence dist start ds).map
        (fun a => prioRank (priorityOfIdx ds a))).length := by
      rw [List.length_map]; exact hj
    have hi' : i < ((fallbackSequence dist start ds).map
        (fun a => prioRank (priorityOfIdx ds a))).length := by
      rw [List.length_map]; exact hi
    have h2 := List.Sorted.rel_get_of_lt hsorted
      (show (⟨j, hj'⟩ : Fin _) < ⟨i, hi'⟩ from Fin.mk_lt_mk.mpr hltj)
    simp only [List.get_eq_getElem, List.getElem_map] at h2 hlt
    omega

/-- Witness for C6: two stops with priorities high then urgent, constant
distance function; the urgent stop (original index 1) is emitted first. -/
theorem fallbackSequence_priority_order_witness :
    (∀ d ∈ [Delivery.mk "high" none, Delivery.mk "urgent" none],
      d.priority ∈ recognizedPriorities) ∧ (0 : Nat) < 1 :=
  ⟨by decide,
   fallbackSequence_priority_order (fun _ _ => 0) none
     [Delivery.mk "high" none, Delivery.mk "urgent" none] (by decide) 0 1
     (by decide) (by decide) (by decide)⟩

end FleetFlow
